import Mathlib

/-!
# Verification of `streamlit_app.py` (image-metadata-analyzer)

A shallow embedding of the metadata-extraction functions of
`src/streamlit_app.py` together with proofs of the specified properties.

Modelling conventions:
* Python values that flow through the EXIF/GPS pipeline are modelled by the
  inductive type `PyVal` (strings, byte sequences, numbers, tuples, the GPS
  sub-dictionary keyed by integer tag ids, and `None`).
* Python numbers (ints and floats) are modelled by `ℚ`; `round(x, 7)` is
  modelled exactly as round-half-to-even on `x * 10^7` (`pyRound7`).
* Fallible Python operations (`in` on a non-container, `.get` on a value
  without that attribute, indexing) are modelled with `Except PyExc` /
  `Option` so that exception propagation is explicit.  Code regions wrapped
  in `try: ... except: ...` in the source are modelled as `Option`-valued
  computations whose failure produces the `except` branch's value.
* `bytes.decode(errors="ignore")` and `str.upper` are modelled over the
  ASCII fragment (`asciiDecodeIgnore`, `pyUpper`, `pyStrip`); the GPS reference
  letters that matter ("N"/"S"/"E"/"W") are ASCII.
* `float(x)` applied to text is modelled by `parsePyFloat`, which covers
  optionally signed decimal literals (no exponents / inf / nan).
-/

set_option autoImplicit false

namespace ImageMeta

/-- Python exceptions that the modelled code can raise. -/
inductive PyExc where
  | typeError
  | attributeError
  | valueError
  deriving DecidableEq, Repr

/-- Python values flowing through the EXIF/GPS pipeline.  The GPS IFD is a
dictionary keyed by integer tag ids, hence `dict : List (Nat × PyVal)`. -/
inductive PyVal where
  | none
  | num (q : ℚ)
  | str (s : String)
  | bytes (b : List Nat)
  | tup (xs : List PyVal)
  | dict (d : List (Nat × PyVal))

/-- Python truthiness (`bool(v)`): `None`, `0`, and empty containers are
falsy, everything else is truthy. -/
def pyTruthy : PyVal → Bool
  | .none => false
  | .num q => !(q == 0)
  | .str s => !(s == "")
  | .bytes b => !b.isEmpty
  | .tup xs => !xs.isEmpty
  | .dict d => !d.isEmpty

/-- First-match association-list lookup with `Nat` keys (Python dict access
for the GPS IFD). -/
def lookupNat (k : Nat) : List (Nat × PyVal) → Option PyVal
  | [] => Option.none
  | (k', v) :: rest => if k' = k then some v else lookupNat k rest

/-- First-match association-list lookup with `String` keys (Python dict
access for the EXIF mapping). -/
def lookupStr (k : String) : List (String × PyVal) → Option PyVal
  | [] => Option.none
  | (k', v) :: rest => if k' = k then some v else lookupStr k rest

/-- Equality test of a Python int against a `PyVal` (used by tuple
membership: `2 in (…)`); values of non-numeric type never equal an int. -/
def pyEqNum (k : Nat) : PyVal → Bool
  | .num q => q == (k : ℚ)
  | _ => false

/-- Membership `k in v` for an int `k`: dict key membership, tuple element membership,
byte-value membership for `bytes` (ValueError when out of byte range),
TypeError for non-containers (`int`, `str`, `None`). -/
def pyContainsNat (k : Nat) : PyVal → Except PyExc Bool
  | .dict d => Except.ok (lookupNat k d).isSome
  | .tup xs => Except.ok (xs.any (pyEqNum k))
  | .bytes b => if k ≤ 255 then Except.ok (b.contains k) else Except.error PyExc.valueError
  | .str _ => Except.error PyExc.typeError
  | .num _ => Except.error PyExc.typeError
  | .none => Except.error PyExc.typeError

/-- Python `v.get(k, default)`: only dictionaries have a `get` attribute; anything
else raises AttributeError. -/
def pyDictGet (v : PyVal) (k : Nat) (dflt : PyVal) : Except PyExc PyVal :=
  match v with
  | .dict d => Except.ok ((lookupNat k d).getD dflt)
  | _ => Except.error PyExc.attributeError

/-- Indexing `v[i]` for a non-negative index `i`, as used inside the resolver's
`try` block (failure of any kind is collapsed to `Option.none` because the
surrounding `except` catches everything): tuple indexing, string indexing
(yielding a one-character string), bytes indexing (yielding an int), dict
key lookup; TypeError otherwise. -/
def pyIndex (v : PyVal) (i : Nat) : Option PyVal :=
  match v with
  | .tup xs => xs.get? i
  | .str s => (s.toList.get? i).map (fun c => PyVal.str (String.mk [c]))
  | .bytes b => (b.get? i).map (fun n => PyVal.num (n : ℚ))
  | .dict d => lookupNat i d
  | _ => Option.none

/-- Python `bytes.decode(errors="ignore")` over the ASCII fragment: bytes below
128 become the corresponding character, other bytes are dropped. -/
def asciiDecodeIgnore (b : List Nat) : String :=
  String.mk ((b.filter (fun n => n < 128)).map Char.ofNat)

/-- Digits of a decimal literal to a natural number. -/
def natOfDigits : List Char → Nat
  | [] => 0
  | c :: rest => natOfDigits rest + (c.toNat - 48) * 10 ^ rest.length

/-- Core of `float(s)` for a string `s`, restricted to optionally signed decimal
literals (such as "12", "-3.5", ".5", "7."); exponents, `inf`/`nan`, and
underscores are outside the modelled fragment and count as failures. -/
def parsePyFloatUnsigned (l : List Char) : Option ℚ :=
  let intPart := l.takeWhile Char.isDigit
  let rest := l.dropWhile Char.isDigit
  match rest with
  | [] => if intPart.isEmpty then Option.none else some (natOfDigits intPart : ℚ)
  | '.' :: frac =>
    if frac.all Char.isDigit && !(intPart.isEmpty && frac.isEmpty) then
      some ((natOfDigits intPart : ℚ) + (natOfDigits frac : ℚ) / 10 ^ frac.length)
    else Option.none
  | _ => Option.none

/-- Python `str.strip()` with no arguments: remove leading and trailing
whitespace (over the ASCII whitespace characters). -/
def pyStrip (s : String) : String :=
  String.mk (((s.toList.dropWhile Char.isWhitespace).reverse.dropWhile
    Char.isWhitespace).reverse)

/-- Python `float(s)` on text: optional surrounding whitespace and sign, then an
unsigned decimal literal. -/
def parsePyFloat (s : String) : Option ℚ :=
  match (pyStrip s).toList with
  | '-' :: rest => (parsePyFloatUnsigned rest).map Neg.neg
  | '+' :: rest => parsePyFloatUnsigned rest
  | l => parsePyFloatUnsigned l

/-- Python `float(v)`: numbers convert exactly; numeric text (also as ASCII
bytes) is parsed; tuples, dicts and `None` raise TypeError (modelled as
`Option.none`). -/
def pyFloat : PyVal → Option ℚ
  | .num q => some q
  | .str s => parsePyFloat s
  | .bytes b => if b.all (fun n => n < 128) then parsePyFloat (asciiDecodeIgnore b) else Option.none
  | _ => Option.none

/-- The helper `_rational_to_float` from `extract_gps_from_exif` (lines 52–59): a
two-element tuple is treated as numerator/denominator where a falsy
denominator yields `0.0` (and a zero-valued truthy denominator hits
ZeroDivisionError, caught to `0.0`); anything else goes through `float`,
with every failure caught to `0.0`. -/
def rational_to_float (r : PyVal) : ℚ :=
  match r with
  | .tup [a, b] =>
    if pyTruthy b then
      match pyFloat a, pyFloat b with
      | some x, some y => if y = 0 then 0 else x / y
      | _, _ => 0
    else 0
  | r' => (pyFloat r').getD 0

/-- Round-half-to-even to an integer (Python's `round` tie-breaking). -/
def roundHalfEven (q : ℚ) : ℤ :=
  if q - Int.floor q < 1/2 then Int.floor q
  else if q - Int.floor q > 1/2 then Int.floor q + 1
  else if Int.floor q % 2 = 0 then Int.floor q else Int.floor q + 1

/-- Python's `round(x, 7)` in the rational model. -/
def pyRound7 (q : ℚ) : ℚ :=
  ((roundHalfEven (q * 10000000) : ℤ) : ℚ) / 10000000

/-- The degree/minute/second combination computed at lines 88–89. -/
def dmsValue (d m s : ℚ) : ℚ := d + m / 60 + s / 3600

/-- ASCII uppercase of one character (the fragment of Python `str.upper`
relevant to the "N"/"S"/"E"/"W" reference letters). -/
def asciiUpperChar (c : Char) : Char :=
  if 'a' ≤ c ∧ c ≤ 'z' then Char.ofNat (c.toNat - 32) else c

/-- Python `str.upper` over the ASCII fragment. -/
def pyUpper (s : String) : String :=
  String.mk (s.toList.map asciiUpperChar)

/-- The reference indicator as the string that `.upper()` is called on:
strings stay, bytes are decoded with `errors="ignore"`, and any other value
raises AttributeError at `.upper()` (modelled as `Option.none`, caught by
the surrounding `try`). -/
def refToStr : PyVal → Option String
  | .str s => some s
  | .bytes b => some (asciiDecodeIgnore b)
  | _ => Option.none

/-- The body of the `try` block at lines 80–102: index both triples,
convert each component with `_rational_to_float`, combine, decode/compare
the reference indicators, negate on "S"/"W" (case-insensitively), round
both values to 7 places.  Any failure is caught by the `except` and yields
`Option.none`. -/
def gpsTryBlock (lat_ref lon_ref lat_vals lon_vals : PyVal) : Option (ℚ × ℚ) :=
  match pyIndex lat_vals 0, pyIndex lat_vals 1, pyIndex lat_vals 2,
        pyIndex lon_vals 0, pyIndex lon_vals 1, pyIndex lon_vals 2 with
  | some l0, some l1, some l2, some g0, some g1, some g2 =>
    let lat := rational_to_float l0 + rational_to_float l1 / 60 + rational_to_float l2 / 3600
    let lon := rational_to_float g0 + rational_to_float g1 / 60 + rational_to_float g2 / 3600
    match refToStr lat_ref, refToStr lon_ref with
    | some latS, some lonS =>
      some (pyRound7 (if pyUpper latS = "S" then -lat else lat),
            pyRound7 (if pyUpper lonS = "W" then -lon else lon))
    | _, _ => Option.none
  | _, _, _, _, _, _ => Option.none

/-- The resolver `extract_gps_from_exif` (lines 46–104).  The result is `Except` because
the accesses at lines 71–75 (`2 in gps_ifd`, `gps_ifd.get`) happen outside
the `try` block, so on a GPS entry of non-dictionary shape they raise out
of the function. -/
def extract_gps_from_exif (exif : List (String × PyVal)) : Except PyExc (Option (ℚ × ℚ)) :=
  let gps_ifd := (lookupStr "GPSInfo" exif).getD PyVal.none
  if pyTruthy gps_ifd = false then Except.ok Option.none
  else
    match pyContainsNat 2 gps_ifd with
    | Except.error e => Except.error e
    | Except.ok false => Except.ok Option.none
    | Except.ok true =>
      match pyContainsNat 4 gps_ifd with
      | Except.error e => Except.error e
      | Except.ok false => Except.ok Option.none
      | Except.ok true =>
        match pyDictGet gps_ifd 1 (PyVal.str "N") with
        | Except.error e => Except.error e
        | Except.ok lat_ref =>
          match pyDictGet gps_ifd 3 (PyVal.str "E") with
          | Except.error e => Except.error e
          | Except.ok lon_ref =>
            match pyDictGet gps_ifd 2 PyVal.none with
            | Except.error e => Except.error e
            | Except.ok lat_vals =>
              match pyDictGet gps_ifd 4 PyVal.none with
              | Except.error e => Except.error e
              | Except.ok lon_vals =>
                if pyTruthy lat_vals = false ∨ pyTruthy lon_vals = false then
                  Except.ok Option.none
                else
                  Except.ok (gpsTryBlock lat_ref lon_ref lat_vals lon_vals)

/-- How a GPS reference indicator can be present in the GPS IFD: missing
(the `.get` default applies), a string, or a byte sequence. -/
inductive RefSpec where
  | absent
  | strv (s : String)
  | bytv (b : List Nat)

/-- The dictionary entries a `RefSpec` contributes under tag `t`. -/
def RefSpec.entry (t : Nat) : RefSpec → List (Nat × PyVal)
  | .absent => []
  | .strv s => [(t, PyVal.str s)]
  | .bytv b => [(t, PyVal.bytes b)]

/-- The string the resolver ends up comparing: the default when the entry
is absent, the string itself, or the decoded bytes. -/
def RefSpec.eff (dflt : String) : RefSpec → String
  | .absent => dflt
  | .strv s => s
  | .bytv b => asciiDecodeIgnore b

/-- A three-component degree/minute/second GPS value. -/
def dmsTriple (d m s : ℚ) : PyVal :=
  PyVal.tup [PyVal.num d, PyVal.num m, PyVal.num s]

/-- An EXIF mapping whose GPS IFD holds a latitude triple at tag 2, a
longitude triple at tag 4, and reference indicators per the `RefSpec`s at
tags 1 and 3. -/
def mkGpsExif (latR lonR : RefSpec) (d1 m1 s1 d2 m2 s2 : ℚ) : List (String × PyVal) :=
  [("GPSInfo", PyVal.dict
    (latR.entry 1 ++ lonR.entry 3 ++
      [(2, dmsTriple d1 m1 s1), (4, dmsTriple d2 m2 s2)]))]

/-- Evaluation of the resolver on a well-formed GPS IFD: both axes get the
degree/minute/second combination, negated when the (decoded, uppercased)
reference is "S" respectively "W", and rounded to 7 places. -/
theorem extract_gps_mkGpsExif (latR lonR : RefSpec) (d1 m1 s1 d2 m2 s2 : ℚ) :
    extract_gps_from_exif (mkGpsExif latR lonR d1 m1 s1 d2 m2 s2) =
      Except.ok (some
        (pyRound7 (if pyUpper (latR.eff "N") = "S" then -dmsValue d1 m1 s1 else dmsValue d1 m1 s1),
         pyRound7 (if pyUpper (lonR.eff "E") = "W" then -dmsValue d2 m2 s2 else dmsValue d2 m2 s2))) := by
  cases latR <;> cases lonR <;>
    simp [extract_gps_from_exif, mkGpsExif, RefSpec.entry, RefSpec.eff, dmsTriple,
      pyTruthy, pyContainsNat, pyDictGet, pyIndex, gpsTryBlock, refToStr,
      dmsValue, rational_to_float, pyFloat, lookupNat, lookupStr]

/-- The rounded value is the floor or its successor. -/
theorem roundHalfEven_eq_floor_or_succ (q : ℚ) :
    roundHalfEven q = Int.floor q ∨ roundHalfEven q = Int.floor q + 1 := by
  unfold roundHalfEven
  split
  · exact Or.inl rfl
  · split
    · exact Or.inr rfl
    · split
      · exact Or.inl rfl
      · exact Or.inr rfl

/-- Rounding a non-negative rational gives a non-negative integer. -/
theorem roundHalfEven_nonneg {q : ℚ} (h : 0 ≤ q) : 0 ≤ roundHalfEven q := by
  have hf : (0 : ℤ) ≤ Int.floor q := by
    have := Int.floor_le_floor (α := ℚ) h
    simpa using this
  rcases roundHalfEven_eq_floor_or_succ q with he | he <;> rw [he] <;> omega

/-- Rounding a non-positive rational gives a non-positive integer. -/
theorem roundHalfEven_nonpos {q : ℚ} (h : q ≤ 0) : roundHalfEven q ≤ 0 := by
  have hf : Int.floor q ≤ 0 := by
    have := Int.floor_le_floor (α := ℚ) h
    simpa using this
  have hfl : (Int.floor q : ℚ) ≤ q := Int.floor_le q
  unfold roundHalfEven
  split
  · exact hf
  · rename_i hge
    split
    · rename_i hgt
      have h2 : Int.floor q < 0 := by
        by_contra hc
        push_neg at hc
        have : (0 : ℚ) ≤ (Int.floor q : ℚ) := by exact_mod_cast hc
        linarith
      omega
    · rename_i hgt
      push_neg at hge hgt
      have heq : q - Int.floor q = 1/2 := le_antisymm hgt hge
      have h2 : Int.floor q < 0 := by
        by_contra hc
        push_neg at hc
        have : (0 : ℚ) ≤ (Int.floor q : ℚ) := by exact_mod_cast hc
        linarith
      split <;> omega

/-- Non-negative inputs round to non-negative values. -/
theorem pyRound7_nonneg {q : ℚ} (h : 0 ≤ q) : 0 ≤ pyRound7 q := by
  unfold pyRound7
  have h7 : (0 : ℚ) ≤ q * 10000000 := by positivity
  have := roundHalfEven_nonneg h7
  positivity

/-- Non-positive inputs round to non-positive values. -/
theorem pyRound7_nonpos {q : ℚ} (h : q ≤ 0) : pyRound7 q ≤ 0 := by
  unfold pyRound7
  have h7 : q * 10000000 ≤ 0 := by nlinarith
  have hr := roundHalfEven_nonpos h7
  have : ((roundHalfEven (q * 10000000) : ℤ) : ℚ) ≤ 0 := by exact_mod_cast hr
  nlinarith

/-- Every rounded value is an integer multiple of `10 ^ (-7)`. -/
theorem pyRound7_int_div (q : ℚ) : ∃ a : ℤ, pyRound7 q = (a : ℚ) / 10000000 :=
  ⟨roundHalfEven (q * 10000000), rfl⟩

/-- The shape required for the pre-`try` accesses of the resolver not to
raise: the `GPSInfo` entry is a dictionary, or is absent/falsy (in which
case the resolver returns before touching it). -/
def gpsShapeOk (exif : List (String × PyVal)) : Prop :=
  match (lookupStr "GPSInfo" exif).getD PyVal.none with
  | PyVal.dict _ => True
  | v => pyTruthy v = false

/-- What the resolver computes once the GPS entry is known to be a
dictionary `d`: the pure part of lines 71–102, with no exceptional exit. -/
def gpsFromDict (d : List (Nat × PyVal)) : Option (ℚ × ℚ) :=
  if d.isEmpty then Option.none
  else if (lookupNat 2 d).isSome = false then Option.none
  else if (lookupNat 4 d).isSome = false then Option.none
  else if pyTruthy ((lookupNat 2 d).getD PyVal.none) = false ∨
          pyTruthy ((lookupNat 4 d).getD PyVal.none) = false then Option.none
  else gpsTryBlock ((lookupNat 1 d).getD (PyVal.str "N"))
        ((lookupNat 3 d).getD (PyVal.str "E"))
        ((lookupNat 2 d).getD PyVal.none) ((lookupNat 4 d).getD PyVal.none)

/-- On a dictionary GPS entry the resolver returns normally, with the value
described by `gpsFromDict`. -/
theorem extract_gps_dict (exif : List (String × PyVal)) (d : List (Nat × PyVal))
    (hv : (lookupStr "GPSInfo" exif).getD PyVal.none = PyVal.dict d) :
    extract_gps_from_exif exif = Except.ok (gpsFromDict d) := by
  simp only [extract_gps_from_exif, hv, gpsFromDict, pyContainsNat, pyDictGet, pyTruthy]
  by_cases hd : d.isEmpty
  · simp [hd]
  · simp only [hd, Bool.not_false, if_neg, ite_false, Bool.true_eq_false, if_false]
    cases h2 : (lookupNat 2 d).isSome <;> cases h4 : (lookupNat 4 d).isSome <;>
      simp [h2, h4]
    split <;> rfl

/-- A dictionary GPS entry missing tag 2 or tag 4 yields the absent
result. -/
theorem gpsFromDict_none_of_missing (d : List (Nat × PyVal))
    (hm : lookupNat 2 d = Option.none ∨ lookupNat 4 d = Option.none) :
    gpsFromDict d = Option.none := by
  unfold gpsFromDict
  rcases hm with hm | hm
  · by_cases hd : d.isEmpty <;> simp [hd, hm]
  · by_cases hd : d.isEmpty <;> by_cases h2 : (lookupNat 2 d).isSome <;> simp [hd, h2, hm]

/-- Any coordinate pair produced by the `try` block is a pair of rounded
values. -/
theorem gpsTryBlock_shape (a b c e : PyVal) (p : ℚ × ℚ)
    (h : gpsTryBlock a b c e = some p) :
    ∃ x y, p = (pyRound7 x, pyRound7 y) := by
  simp only [gpsTryBlock] at h
  split at h
  · split at h
    · exact ⟨_, _, (Option.some.inj h).symm⟩
    · simp at h
  · simp at h

/-- Exhaustive description of the resolver's result by the shape of the
GPS entry: absent result, a raised exception, or the dictionary case. -/
theorem extract_gps_shape_cases (exif : List (String × PyVal)) :
    extract_gps_from_exif exif = Except.ok Option.none ∨
    (∃ e, extract_gps_from_exif exif = Except.error e) ∨
    (∃ d, (lookupStr "GPSInfo" exif).getD PyVal.none = PyVal.dict d ∧
      extract_gps_from_exif exif = Except.ok (gpsFromDict d)) := by
  cases hv : (lookupStr "GPSInfo" exif).getD PyVal.none with
  | dict d => exact Or.inr (Or.inr ⟨d, rfl, extract_gps_dict exif d hv⟩)
  | none => left; simp [extract_gps_from_exif, hv, pyTruthy]
  | num q =>
    by_cases hq : q = 0
    · left; simp [extract_gps_from_exif, hv, pyTruthy, hq]
    · right; left
      exact ⟨PyExc.typeError, by simp [extract_gps_from_exif, hv, pyTruthy, hq, pyContainsNat]⟩
  | str s =>
    by_cases hs : s = ""
    · left; simp [extract_gps_from_exif, hv, pyTruthy, hs]
    · right; left
      exact ⟨PyExc.typeError, by simp [extract_gps_from_exif, hv, pyTruthy, hs, pyContainsNat]⟩
  | bytes b =>
    by_cases hb : b.isEmpty
    · left; simp [extract_gps_from_exif, hv, pyTruthy, hb]
    · by_cases hc2 : (2 : Nat) ∈ b
      · by_cases hc4 : (4 : Nat) ∈ b
        · right; left
          exact ⟨PyExc.attributeError,
            by simp [extract_gps_from_exif, hv, pyTruthy, hb, pyContainsNat, hc2, hc4, pyDictGet]⟩
        · left; simp [extract_gps_from_exif, hv, pyTruthy, hb, pyContainsNat, hc2, hc4]
      · left; simp [extract_gps_from_exif, hv, pyTruthy, hb, pyContainsNat, hc2]
  | tup xs =>
    by_cases hb : xs.isEmpty
    · left; simp [extract_gps_from_exif, hv, pyTruthy, hb]
    · cases hc2 : xs.any (pyEqNum 2)
      · left; simp [extract_gps_from_exif, hv, pyTruthy, hb, pyContainsNat, hc2]
      · cases hc4 : xs.any (pyEqNum 4)
        · left; simp [extract_gps_from_exif, hv, pyTruthy, hb, pyContainsNat, hc2, hc4]
        · right; left
          exact ⟨PyExc.attributeError,
            by simp [extract_gps_from_exif, hv, pyTruthy, hb, pyContainsNat, hc2, hc4, pyDictGet]⟩

/-- Rounding fixes rationals that are already integers. -/
theorem pyRound7_intCast (n : ℤ) : pyRound7 ((n : ℚ)) = (n : ℚ) := by
  have hc : ((n : ℚ) * 10000000) = ((n * 10000000 : ℤ) : ℚ) := by push_cast; ring
  unfold pyRound7 roundHalfEven
  rw [hc, Int.floor_intCast]
  rw [if_pos (by rw [sub_self]; norm_num :
    ((n * 10000000 : ℤ) : ℚ) - ((n * 10000000 : ℤ) : ℚ) < 1/2)]
  push_cast
  field_simp

/-- Evaluation of `pyRound7` on the latitude of the documented example. -/
theorem pyRound7_example_lat : pyRound7 (dmsValue 40 26 (46302/1000)) = 40446195/1000000 := by
  have h1 : dmsValue 40 26 (46302/1000) * 10000000 = (404461950 : ℚ) := by
    norm_num [dmsValue]
  have hf : Int.floor ((404461950 : ℚ)) = 404461950 := by norm_num
  simp [pyRound7, roundHalfEven, h1, hf]
  norm_num

/-- Evaluation of `pyRound7` on the longitude of the documented example. -/
theorem pyRound7_example_lon : pyRound7 (-dmsValue 79 56 (55163/1000)) = -799486564/10000000 := by
  have h1 : -dmsValue 79 56 (55163/1000) * 10000000 = (-7195379075/9 : ℚ) := by
    norm_num [dmsValue]
  have hf : Int.floor ((-7195379075/9 : ℚ)) = -799486564 := by
    rw [Int.floor_eq_iff]
    norm_num
  simp [pyRound7, roundHalfEven, h1, hf]
  norm_num

/-- Claim C1, confirmed: for every raw metadata map whose GPS sub-mapping
holds latitude and longitude degree/minute/second triples, the resolver
returns `round(deg + min/60 + sec/3600, 7)` per axis, negating latitude
when the latitude reference is "S" and longitude when the longitude
reference is "W", with references defaulting to "N"/"E" when absent and
byte-valued references decoded first; on the documented example
GPSLatitude=(40,26,46.302) ref "N", GPSLongitude=(79,56,55.163) ref "W"
it yields latitude 40.446195 and longitude -79.9486564. -/
theorem claimC1_gps_decimal_conversion :
    (∀ (latR lonR : RefSpec) (d1 m1 s1 d2 m2 s2 : ℚ),
      extract_gps_from_exif (mkGpsExif latR lonR d1 m1 s1 d2 m2 s2) =
        Except.ok (some
          (pyRound7 (if pyUpper (latR.eff "N") = "S" then -dmsValue d1 m1 s1
            else dmsValue d1 m1 s1),
           pyRound7 (if pyUpper (lonR.eff "E") = "W" then -dmsValue d2 m2 s2
            else dmsValue d2 m2 s2)))) ∧
    extract_gps_from_exif
        (mkGpsExif (RefSpec.strv "N") (RefSpec.strv "W") 40 26 (46302/1000) 79 56 (55163/1000)) =
      Except.ok (some (40446195/1000000, -799486564/10000000)) := by
  constructor
  · exact extract_gps_mkGpsExif
  · rw [extract_gps_mkGpsExif]
    rw [if_neg (by decide : ¬ pyUpper ((RefSpec.strv "N").eff "N") = "S"),
        if_pos (by decide : pyUpper ((RefSpec.strv "W").eff "E") = "W")]
    rw [pyRound7_example_lat, pyRound7_example_lon]

/-- Claim C2, counterexample: a GPS entry of unexpected (non-mapping) shape
does not yield an absent result — the membership tests at line 71 succeed
on a tuple containing 2 and 4 and then `.get` at line 72 raises
AttributeError, which propagates out of the resolver. -/
theorem claimC2_counterexample :
    extract_gps_from_exif [("GPSInfo", PyVal.tup [PyVal.num 2, PyVal.num 4])] =
      Except.error PyExc.attributeError := by
  simp [extract_gps_from_exif, lookupStr, pyTruthy, pyContainsNat, pyEqNum, pyDictGet,
    List.any, List.isEmpty]

/-- Claim C2, amended: whenever the GPS entry is absent, falsy, or an
actual mapping — the shapes the EXIF decoder produces — no exception
escapes the resolver, and a mapping missing the latitude-value entry (tag
2) or longitude-value entry (tag 4) yields the absent result. -/
theorem claimC2_no_throw_on_mapping (exif : List (String × PyVal)) (h : gpsShapeOk exif) :
    (∃ r, extract_gps_from_exif exif = Except.ok r) ∧
    (∀ d, (lookupStr "GPSInfo" exif).getD PyVal.none = PyVal.dict d →
      (lookupNat 2 d = Option.none ∨ lookupNat 4 d = Option.none) →
      extract_gps_from_exif exif = Except.ok Option.none) := by
  constructor
  · unfold gpsShapeOk at h
    cases hv : (lookupStr "GPSInfo" exif).getD PyVal.none with
    | dict d => exact ⟨_, extract_gps_dict exif d hv⟩
    | none =>
      exact ⟨Option.none, by simp [extract_gps_from_exif, hv, pyTruthy]⟩
    | num q =>
      rw [hv] at h
      have h' : pyTruthy (PyVal.num q) = false := h
      exact ⟨Option.none, by simp only [extract_gps_from_exif, hv]; rw [if_pos h']⟩
    | str s =>
      rw [hv] at h
      have h' : pyTruthy (PyVal.str s) = false := h
      exact ⟨Option.none, by simp only [extract_gps_from_exif, hv]; rw [if_pos h']⟩
    | bytes b =>
      rw [hv] at h
      have h' : pyTruthy (PyVal.bytes b) = false := h
      exact ⟨Option.none, by simp only [extract_gps_from_exif, hv]; rw [if_pos h']⟩
    | tup xs =>
      rw [hv] at h
      have h' : pyTruthy (PyVal.tup xs) = false := h
      exact ⟨Option.none, by simp only [extract_gps_from_exif, hv]; rw [if_pos h']⟩
  · intro d hv hm
    rw [extract_gps_dict exif d hv, gpsFromDict_none_of_missing d hm]

/-- Witness for C2: a dictionary GPS entry with only a latitude triple
satisfies the shape hypothesis and yields the absent result. -/
theorem claimC2_witness :
    gpsShapeOk [("GPSInfo", PyVal.dict [(2, dmsTriple 1 0 0)])] ∧
    extract_gps_from_exif [("GPSInfo", PyVal.dict [(2, dmsTriple 1 0 0)])] =
      Except.ok Option.none := by
  have hs : gpsShapeOk [("GPSInfo", PyVal.dict [(2, dmsTriple 1 0 0)])] := trivial
  refine ⟨hs, ?_⟩
  exact (claimC2_no_throw_on_mapping _ hs).2 _ rfl (Or.inr rfl)

/-- Claim C3, counterexample: the resolver does not confine latitude to
[-90, 90] — a latitude triple of (200, 0, 0) comes back as 200. -/
theorem claimC3_counterexample :
    extract_gps_from_exif (mkGpsExif RefSpec.absent RefSpec.absent 200 0 0 0 0 0) =
      Except.ok (some (200, 0)) ∧ ¬ ((200 : ℚ) ≤ 90) := by
  constructor
  · rw [extract_gps_mkGpsExif]
    rw [if_neg (by decide : ¬ pyUpper (RefSpec.eff "N" RefSpec.absent) = "S"),
        if_neg (by decide : ¬ pyUpper (RefSpec.eff "E" RefSpec.absent) = "W")]
    have e1 : dmsValue 200 0 0 = ((200 : ℤ) : ℚ) := by norm_num [dmsValue]
    have e2 : dmsValue 0 0 0 = ((0 : ℤ) : ℚ) := by norm_num [dmsValue]
    rw [e1, e2, pyRound7_intCast, pyRound7_intCast]
    norm_num
  · norm_num

/-- Claim C3, amended: whenever the resolver returns a coordinate pair,
both components are rounded to 7 decimal places, i.e. are integer
multiples of 10^(-7); the code imposes no [-90,90]/[-180,180] range. -/
theorem claimC3_rounded_to_7_places (exif : List (String × PyVal)) (la lo : ℚ)
    (h : extract_gps_from_exif exif = Except.ok (some (la, lo))) :
    (∃ a : ℤ, la = (a : ℚ) / 10000000) ∧ (∃ b : ℤ, lo = (b : ℚ) / 10000000) := by
  rcases extract_gps_shape_cases exif with h0 | ⟨e, h0⟩ | ⟨d, hv, h0⟩
  · rw [h0] at h; simp at h
  · rw [h0] at h; simp at h
  · rw [h0] at h
    have hd : gpsFromDict d = some (la, lo) := by
      have := Except.ok.inj h
      exact this.symm ▸ rfl
    unfold gpsFromDict at hd
    split at hd
    · simp at hd
    · split at hd
      · simp at hd
      · split at hd
        · simp at hd
        · split at hd
          · simp at hd
          · obtain ⟨x, y, hp⟩ := gpsTryBlock_shape _ _ _ _ _ hd
            rw [Prod.ext_iff] at hp
            obtain ⟨h1, h2⟩ := hp
            simp only at h1 h2
            rw [h1, h2]
            exact ⟨pyRound7_int_div x, pyRound7_int_div y⟩

/-- Witness for C3: a concrete resolver output, with both components
exhibited as integer multiples of 10^(-7). -/
theorem claimC3_witness :
    extract_gps_from_exif (mkGpsExif RefSpec.absent RefSpec.absent 1 0 0 2 0 0) =
      Except.ok (some (1, 2)) ∧
    (∃ a : ℤ, (1 : ℚ) = (a : ℚ) / 10000000) ∧ (∃ b : ℤ, (2 : ℚ) = (b : ℚ) / 10000000) := by
  have he : extract_gps_from_exif (mkGpsExif RefSpec.absent RefSpec.absent 1 0 0 2 0 0) =
      Except.ok (some (1, 2)) := by
    rw [extract_gps_mkGpsExif]
    rw [if_neg (by decide : ¬ pyUpper (RefSpec.eff "N" RefSpec.absent) = "S"),
        if_neg (by decide : ¬ pyUpper (RefSpec.eff "E" RefSpec.absent) = "W")]
    have e1 : dmsValue 1 0 0 = ((1 : ℤ) : ℚ) := by norm_num [dmsValue]
    have e2 : dmsValue 2 0 0 = ((2 : ℤ) : ℚ) := by norm_num [dmsValue]
    rw [e1, e2, pyRound7_intCast, pyRound7_intCast]
    norm_num
  exact ⟨he, claimC3_rounded_to_7_places _ 1 2 he⟩

/-- Claim C4, confirmed: for non-negative degree/minute/second triples, the
"N"/"E" references give non-negative coordinates, "S"/"W" give
non-positive latitude/longitude, and lowercase "s"/"w" act exactly as
"S"/"W" (case-insensitive matching). -/
theorem claimC4_reference_signs (d1 m1 s1 d2 m2 s2 : ℚ)
    (hd1 : 0 ≤ d1) (hm1 : 0 ≤ m1) (hs1 : 0 ≤ s1)
    (hd2 : 0 ≤ d2) (hm2 : 0 ≤ m2) (hs2 : 0 ≤ s2) :
    (extract_gps_from_exif
        (mkGpsExif (RefSpec.strv "N") (RefSpec.strv "E") d1 m1 s1 d2 m2 s2) =
      Except.ok (some (pyRound7 (dmsValue d1 m1 s1), pyRound7 (dmsValue d2 m2 s2))) ∧
     0 ≤ pyRound7 (dmsValue d1 m1 s1) ∧ 0 ≤ pyRound7 (dmsValue d2 m2 s2)) ∧
    (extract_gps_from_exif
        (mkGpsExif (RefSpec.strv "S") (RefSpec.strv "W") d1 m1 s1 d2 m2 s2) =
      Except.ok (some (pyRound7 (-dmsValue d1 m1 s1), pyRound7 (-dmsValue d2 m2 s2))) ∧
     pyRound7 (-dmsValue d1 m1 s1) ≤ 0 ∧ pyRound7 (-dmsValue d2 m2 s2) ≤ 0) ∧
    extract_gps_from_exif
        (mkGpsExif (RefSpec.strv "s") (RefSpec.strv "w") d1 m1 s1 d2 m2 s2) =
      extract_gps_from_exif
        (mkGpsExif (RefSpec.strv "S") (RefSpec.strv "W") d1 m1 s1 d2 m2 s2) := by
  have hq1 : 0 ≤ dmsValue d1 m1 s1 :=
    add_nonneg (add_nonneg hd1 (div_nonneg hm1 (by norm_num))) (div_nonneg hs1 (by norm_num))
  have hq2 : 0 ≤ dmsValue d2 m2 s2 :=
    add_nonneg (add_nonneg hd2 (div_nonneg hm2 (by norm_num))) (div_nonneg hs2 (by norm_num))
  refine ⟨⟨?_, pyRound7_nonneg hq1, pyRound7_nonneg hq2⟩,
          ⟨?_, pyRound7_nonpos (by linarith), pyRound7_nonpos (by linarith)⟩, ?_⟩
  · rw [extract_gps_mkGpsExif]
    rw [if_neg (by decide : ¬ pyUpper ((RefSpec.strv "N").eff "N") = "S"),
        if_neg (by decide : ¬ pyUpper ((RefSpec.strv "E").eff "E") = "W")]
  · rw [extract_gps_mkGpsExif]
    rw [if_pos (by decide : pyUpper ((RefSpec.strv "S").eff "N") = "S"),
        if_pos (by decide : pyUpper ((RefSpec.strv "W").eff "E") = "W")]
  · rw [extract_gps_mkGpsExif, extract_gps_mkGpsExif]
    rw [if_pos (by decide : pyUpper ((RefSpec.strv "s").eff "N") = "S"),
        if_pos (by decide : pyUpper ((RefSpec.strv "w").eff "E") = "W"),
        if_pos (by decide : pyUpper ((RefSpec.strv "S").eff "N") = "S"),
        if_pos (by decide : pyUpper ((RefSpec.strv "W").eff "E") = "W")]

/-- Witness for C4: the sign facts at the all-zero triple. -/
theorem claimC4_witness :
    extract_gps_from_exif (mkGpsExif (RefSpec.strv "S") (RefSpec.strv "W") 0 0 0 0 0 0) =
      Except.ok (some (pyRound7 (-dmsValue 0 0 0), pyRound7 (-dmsValue 0 0 0))) ∧
    pyRound7 (-dmsValue 0 0 0) ≤ 0 :=
  ⟨((claimC4_reference_signs 0 0 0 0 0 0 le_rfl le_rfl le_rfl le_rfl le_rfl le_rfl).2.1).1,
   ((claimC4_reference_signs 0 0 0 0 0 0 le_rfl le_rfl le_rfl le_rfl le_rfl le_rfl).2.1).2.1⟩

/-- Claim C5, confirmed: `_rational_to_float` is total — it returns a value
for every input.  A two-element (numerator, denominator) pair with a
non-zero numeric denominator maps to numerator/denominator; a falsy
denominator yields 0.0; and every value that is not a two-element pair
and fails `float` conversion yields 0.0. -/
theorem claimC5_rational_to_float_total :
    (∀ a b : ℚ, ¬ b = 0 →
      rational_to_float (PyVal.tup [PyVal.num a, PyVal.num b]) = a / b) ∧
    (∀ x y : PyVal, pyTruthy y = false → rational_to_float (PyVal.tup [x, y]) = 0) ∧
    (∀ r : PyVal, pyFloat r = Option.none → (∀ x y, ¬ r = PyVal.tup [x, y]) →
      rational_to_float r = 0) := by
  refine ⟨?_, ?_, ?_⟩
  · intro a b hb
    simp [rational_to_float, pyTruthy, pyFloat, hb]
  · intro x y hy
    simp [rational_to_float, hy]
  · intro r hf hnt
    cases r with
    | none => simp [rational_to_float, pyFloat]
    | num q => simp [pyFloat] at hf
    | str s => simp only [rational_to_float, hf, Option.getD_none]
    | bytes b => simp only [rational_to_float, hf, Option.getD_none]
    | dict d => simp [rational_to_float, pyFloat]
    | tup xs =>
      match xs with
      | [] => simp [rational_to_float, pyFloat]
      | [a] => simp [rational_to_float, pyFloat]
      | [a, b] => exact absurd rfl (hnt a b)
      | a :: b :: c :: t => simp [rational_to_float, pyFloat]

/-- Witness for C5: concrete instances of all three components. -/
theorem claimC5_witness :
    rational_to_float (PyVal.tup [PyVal.num 3, PyVal.num 4]) = 3 / 4 ∧
    rational_to_float (PyVal.tup [PyVal.num 3, PyVal.num 0]) = 0 ∧
    rational_to_float PyVal.none = 0 :=
  ⟨claimC5_rational_to_float_total.1 3 4 (by norm_num),
   claimC5_rational_to_float_total.2.1 (PyVal.num 3) (PyVal.num 0) (by simp [pyTruthy]),
   claimC5_rational_to_float_total.2.2 PyVal.none rfl
     (fun x y hxy => by simp at hxy)⟩

/-- Claim C10, confirmed: any reference indicator whose effective string
does not uppercase to "S" (latitude) or "W" (longitude) — including
arbitrary strings such as "X" or the empty string, byte references, and
absent references — behaves exactly like "N"/"E": both axes keep the
positive combination, and the result equals the one with no reference
entries at all. -/
theorem claimC10_unrecognized_reference (latR lonR : RefSpec) (d1 m1 s1 d2 m2 s2 : ℚ)
    (hlat : ¬ pyUpper (latR.eff "N") = "S") (hlon : ¬ pyUpper (lonR.eff "E") = "W") :
    extract_gps_from_exif (mkGpsExif latR lonR d1 m1 s1 d2 m2 s2) =
      Except.ok (some (pyRound7 (dmsValue d1 m1 s1), pyRound7 (dmsValue d2 m2 s2))) ∧
    extract_gps_from_exif (mkGpsExif latR lonR d1 m1 s1 d2 m2 s2) =
      extract_gps_from_exif (mkGpsExif RefSpec.absent RefSpec.absent d1 m1 s1 d2 m2 s2) := by
  constructor
  · rw [extract_gps_mkGpsExif, if_neg hlat, if_neg hlon]
  · rw [extract_gps_mkGpsExif, extract_gps_mkGpsExif, if_neg hlat, if_neg hlon,
      if_neg (by decide : ¬ pyUpper (RefSpec.eff "N" RefSpec.absent) = "S"),
      if_neg (by decide : ¬ pyUpper (RefSpec.eff "E" RefSpec.absent) = "W")]

/-- Witness for C10: reference "X" for latitude and "" for longitude leave
both axes positive. -/
theorem claimC10_witness :
    (¬ pyUpper ((RefSpec.strv "X").eff "N") = "S") ∧
    (¬ pyUpper ((RefSpec.strv "").eff "E") = "W") ∧
    extract_gps_from_exif
        (mkGpsExif (RefSpec.strv "X") (RefSpec.strv "") 10 0 0 20 0 0) =
      Except.ok (some (pyRound7 (dmsValue 10 0 0), pyRound7 (dmsValue 20 0 0))) :=
  ⟨by decide, by decide,
   (claimC10_unrecognized_reference (RefSpec.strv "X") (RefSpec.strv "") 10 0 0 20 0 0
     (by decide) (by decide)).1⟩

/-- A representative embedding of PIL's `ExifTags.TAGS` numeric-id→name
table (an external library constant; the properties proved below hold for
any fixed table). -/
def ExifTags_TAGS : List (Nat × String) :=
  [(256, "ImageWidth"), (257, "ImageLength"), (271, "Make"), (272, "Model"),
   (274, "Orientation"), (282, "XResolution"), (283, "YResolution"),
   (296, "ResolutionUnit"), (305, "Software"), (306, "DateTime"),
   (315, "Artist"), (33432, "Copyright"), (33434, "ExposureTime"),
   (33437, "FNumber"), (34665, "ExifOffset"), (34850, "ExposureProgram"),
   (34853, "GPSInfo"), (36867, "DateTimeOriginal"), (36868, "DateTimeDigitized"),
   (37385, "Flash"), (37386, "FocalLength"), (40961, "ColorSpace"),
   (40962, "ExifImageWidth"), (40963, "ExifImageHeight")]

/-- Lookup in the tag table. -/
def lookupTag (k : Nat) : List (Nat × String) → Option String
  | [] => Option.none
  | (k', v) :: rest => if k' = k then some v else lookupTag k rest

/-- Line 41: `ExifTags.TAGS.get(tag_id, str(tag_id))` — the table name
when the id resolves, otherwise the stringified numeric id. -/
def exifTagName (tid : Nat) : String :=
  (lookupTag tid ExifTags_TAGS).getD (toString tid)

/-- The slice of a PIL image object that `decode_exif` touches: whether
the `_getexif` accessor exists, and what it returns when called (`none`
models a `None` result). -/
structure PILImage where
  hasGetexif : Bool
  getexifResult : Option (List (Nat × PyVal))

/-- Python dict assignment `d[k] = v` on an association list: replace the
entry when the key is present, append otherwise. -/
def upsert (d : List (String × PyVal)) (k : String) (v : PyVal) : List (String × PyVal) :=
  if d.any (fun p => p.1 == k) then
    d.map (fun p => if p.1 = k then (k, v) else p)
  else d ++ [(k, v)]

/-- The decoder `decode_exif` (lines 29–43): empty mapping when the
accessor is missing or yields nothing; otherwise every raw tag id is
stored under `exifTagName`.  (The `tag_map` built at line 39 is dead code
and is not modelled.) -/
def decode_exif (image : PILImage) : List (String × PyVal) :=
  if !image.hasGetexif then []
  else
    let raw_exif := image.getexifResult.getD []
    if raw_exif.isEmpty then []
    else raw_exif.foldl (fun acc kv => upsert acc (exifTagName kv.1) kv.2) []

/-- Keys absent from every entry are not found. -/
theorem lookupStr_eq_none_of_not_any (d : List (String × PyVal)) (k : String)
    (h : d.any (fun p => p.1 == k) = false) : lookupStr k d = Option.none := by
  induction d with
  | nil => rfl
  | cons p t ih =>
    rw [List.any_cons, Bool.or_eq_false_iff] at h
    have hp : ¬ p.1 = k := by
      intro he; rw [he] at h; simp at h
    simp only [lookupStr, if_neg hp]
    exact ih h.2

/-- Replacing the entry for `k` in place makes `k` map to the new value. -/
theorem lookupStr_map_set (d : List (String × PyVal)) (k : String) (v : PyVal)
    (ha : d.any (fun p => p.1 == k) = true) :
    lookupStr k (d.map (fun p => if p.1 = k then (k, v) else p)) = some v := by
  induction d with
  | nil => simp at ha
  | cons p t ih =>
    rw [List.map_cons]
    by_cases hp : p.1 = k
    · rw [if_pos hp]
      simp [lookupStr]
    · rw [if_neg hp]
      have ht : t.any (fun p => p.1 == k) = true := by
        rw [List.any_cons, Bool.or_eq_true] at ha
        rcases ha with h1 | h2
        · exact absurd (by simpa using h1) hp
        · exact h2
      simp only [lookupStr, if_neg hp]
      exact ih ht

/-- Appending an entry for a key not yet present makes it found. -/
theorem lookupStr_append_self (d : List (String × PyVal)) (k : String) (v : PyVal)
    (hnone : lookupStr k d = Option.none) :
    lookupStr k (d ++ [(k, v)]) = some v := by
  induction d with
  | nil => simp [lookupStr]
  | cons p t ih =>
    simp only [lookupStr] at hnone
    simp only [List.cons_append, lookupStr]
    by_cases hp : p.1 = k
    · rw [if_pos hp] at hnone; simp at hnone
    · rw [if_neg hp] at hnone ⊢
      exact ih hnone

/-- After `upsert d k v`, key `k` maps to `v`. -/
theorem lookupStr_upsert_self (d : List (String × PyVal)) (k : String) (v : PyVal) :
    lookupStr k (upsert d k v) = some v := by
  unfold upsert
  split
  · rename_i ha
    exact lookupStr_map_set d k v ha
  · rename_i ha
    exact lookupStr_append_self d k v
      (lookupStr_eq_none_of_not_any d k (Bool.eq_false_iff.mpr ha))

/-- Replacing the entry for another key does not change a lookup. -/
theorem lookupStr_map_other (d : List (String × PyVal)) (k k' : String) (v : PyVal)
    (hk : ¬ k' = k) :
    lookupStr k (d.map (fun p => if p.1 = k' then (k', v) else p)) = lookupStr k d := by
  induction d with
  | nil => rfl
  | cons p t ih =>
    rw [List.map_cons]
    by_cases hp : p.1 = k'
    · rw [if_pos hp]
      simp only [lookupStr, if_neg hk, if_neg (show ¬ p.1 = k from hp ▸ hk)]
      exact ih
    · rw [if_neg hp]
      simp only [lookupStr]
      by_cases hpk : p.1 = k
      · rw [if_pos hpk, if_pos hpk]
      · rw [if_neg hpk, if_neg hpk]
        exact ih

/-- Appending an entry for another key does not change a lookup. -/
theorem lookupStr_append_other (d : List (String × PyVal)) (k k' : String) (v : PyVal)
    (hk : ¬ k' = k) : lookupStr k (d ++ [(k', v)]) = lookupStr k d := by
  induction d with
  | nil => simp [lookupStr, if_neg hk]
  | cons p t ih =>
    simp only [List.cons_append, lookupStr]
    by_cases hpk : p.1 = k
    · rw [if_pos hpk, if_pos hpk]
    · rw [if_neg hpk, if_neg hpk]
      exact ih

/-- `upsert` with a different key does not change a lookup. -/
theorem lookupStr_upsert_other (d : List (String × PyVal)) (k k' : String) (v : PyVal)
    (hk : ¬ k' = k) : lookupStr k (upsert d k' v) = lookupStr k d := by
  unfold upsert
  split
  · exact lookupStr_map_other d k k' v hk
  · exact lookupStr_append_other d k k' v hk

/-- A key present in the accumulator stays present through the decoding
fold. -/
theorem foldl_upsert_preserves (l : List (Nat × PyVal)) (init : List (String × PyVal))
    (k : String) (h : (lookupStr k init).isSome = true) :
    (lookupStr k (l.foldl (fun acc kv => upsert acc (exifTagName kv.1) kv.2) init)).isSome
      = true := by
  induction l generalizing init with
  | nil => exact h
  | cons kv t ih =>
    simp only [List.foldl_cons]
    apply ih
    by_cases hk : exifTagName kv.1 = k
    · rw [← hk, lookupStr_upsert_self]; rfl
    · rw [lookupStr_upsert_other _ _ _ _ hk]; exact h

/-- Every raw tag fed to the fold ends up present under its name. -/
theorem foldl_upsert_mem (l : List (Nat × PyVal)) (init : List (String × PyVal))
    (tid : Nat) (v : PyVal) (hmem : (tid, v) ∈ l) :
    (lookupStr (exifTagName tid)
      (l.foldl (fun acc kv => upsert acc (exifTagName kv.1) kv.2) init)).isSome = true := by
  induction l generalizing init with
  | nil => simp at hmem
  | cons kv t ih =>
    simp only [List.foldl_cons]
    rcases List.mem_cons.mp hmem with he | ht
    · subst he
      apply foldl_upsert_preserves
      rw [lookupStr_upsert_self]; rfl
    · exact ih _ ht

/-- Claim C6, confirmed: the metadata decoder is a total function that
returns the empty mapping when the image has no `_getexif` accessor or the
accessor yields nothing (`None` or an empty mapping), and otherwise stores
every raw tag id under its table name — falling back to the stringified
numeric id — so each raw tag id remains retrievable.  (No modelled
operation of the decoder can raise.) -/
theorem claimC6_decode_exif_total (image : PILImage) :
    (image.hasGetexif = false → decode_exif image = []) ∧
    (image.getexifResult.getD [] = [] → decode_exif image = []) ∧
    (image.hasGetexif = true →
      ∀ raw, image.getexifResult = some raw →
        ∀ tid v, (tid, v) ∈ raw →
          (lookupStr (exifTagName tid) (decode_exif image)).isSome = true) := by
  refine ⟨?_, ?_, ?_⟩
  · intro h; simp [decode_exif, h]
  · intro h
    unfold decode_exif
    cases hg : image.hasGetexif
    · rfl
    · simp [h]
  · intro hg raw hraw tid v hmem
    unfold decode_exif
    rw [hg, hraw]
    simp only [Bool.not_true, Bool.false_eq_true, if_false, Option.getD_some]
    rw [if_neg (by simp [List.isEmpty_iff]; rintro rfl; simp at hmem)]
    exact foldl_upsert_mem raw [] tid v hmem

/-- Witness for C6: a missing accessor yields the empty mapping, and a
raw tag 271 is retrievable under its name ("Make"). -/
theorem claimC6_witness :
    decode_exif ⟨false, some [(271, PyVal.str "Canon")]⟩ = [] ∧
    (lookupStr (exifTagName 271)
      (decode_exif ⟨true, some [(271, PyVal.str "Canon")]⟩)).isSome = true :=
  ⟨(claimC6_decode_exif_total ⟨false, some [(271, PyVal.str "Canon")]⟩).1 rfl,
   (claimC6_decode_exif_total ⟨true, some [(271, PyVal.str "Canon")]⟩).2.2 rfl
     [(271, PyVal.str "Canon")] rfl 271 (PyVal.str "Canon") (by simp)⟩

/-- The extractor `extract_iptc` (lines 107–124).  The `IPTCInfo` parse —
an external library call on the raw bytes — is an oracle parameter
`parse`; its keys are the library's dataset names (strings), and byte
values are decoded before storage (line 118).  The module-level capability
flag `iptc_available` (lines 22–26) is a parameter resolved at import
time. -/
def extract_iptc (iptc_available : Bool)
    (parse : List Nat → Except PyExc (List (String × PyVal)))
    (image_bytes : List Nat) : List (String × PyVal) :=
  if !iptc_available then []
  else
    match parse image_bytes with
    | Except.error _ => []
    | Except.ok entries =>
      entries.foldl (fun acc kv =>
        upsert acc kv.1 (match kv.2 with
          | PyVal.bytes b => PyVal.str (asciiDecodeIgnore b)
          | v => v)) []

/-- Claim C7, confirmed: with the caption-library capability flag false the
extractor returns the empty mapping for every input, and a parse failure
at any stage also returns the empty mapping instead of raising. -/
theorem claimC7_iptc_guarded
    (parse : List Nat → Except PyExc (List (String × PyVal))) (image_bytes : List Nat) :
    extract_iptc false parse image_bytes = [] ∧
    (∀ avail e, parse image_bytes = Except.error e →
      extract_iptc avail parse image_bytes = []) := by
  constructor
  · rfl
  · intro avail e he
    cases avail
    · rfl
    · simp [extract_iptc, he]

/-- Witness for C7: a concrete always-failing parse yields the empty
mapping with the flag in either state. -/
theorem claimC7_witness :
    extract_iptc false (fun _ => Except.error PyExc.typeError) [255, 0] = [] ∧
    extract_iptc true (fun _ => Except.error PyExc.typeError) [255, 0] = [] :=
  ⟨(claimC7_iptc_guarded (fun _ => Except.error PyExc.typeError) [255, 0]).1,
   (claimC7_iptc_guarded (fun _ => Except.error PyExc.typeError) [255, 0]).2 true
     PyExc.typeError rfl⟩

/-- The identifier `detect_language` (lines 136–142): absent when the
capability flag is false or the text strips to empty, otherwise the result
of the external `detect` call (an oracle parameter `det`) with any raised
exception caught to absent. -/
def detect_language (language_detection_available : Bool)
    (det : String → Except PyExc String) (text : String) : Option String :=
  if !language_detection_available || pyStrip text == "" then Option.none
  else
    match det text with
    | Except.ok code => some code
    | Except.error _ => Option.none

/-- Claim C8, confirmed: the language identifier returns absent when its
capability flag is false, when the input strips to the empty string (in
particular on all-whitespace input), and when the underlying detector
raises; no exception propagates. -/
theorem claimC8_detect_language_guarded
    (det : String → Except PyExc String) (text : String) :
    detect_language false det text = Option.none ∧
    (pyStrip text = "" → ∀ avail, detect_language avail det text = Option.none) ∧
    (∀ e, det text = Except.error e → ∀ avail,
      detect_language avail det text = Option.none) := by
  refine ⟨rfl, ?_, ?_⟩
  · intro h avail
    cases avail
    · rfl
    · simp [detect_language, h]
  · intro e he avail
    cases avail
    · rfl
    · by_cases hs : pyStrip text = ""
      · simp [detect_language, hs]
      · simp [detect_language, hs, he]

/-- Witness for C8: the flag-off case, an all-whitespace input, and a
failing detector. -/
theorem claimC8_witness :
    detect_language false (fun _ => Except.ok "en") "hola" = Option.none ∧
    pyStrip " \t " = "" ∧
    detect_language true (fun _ => Except.ok "en") " \t " = Option.none ∧
    detect_language true (fun _ => Except.error PyExc.valueError) "hola" = Option.none :=
  ⟨(claimC8_detect_language_guarded (fun _ => Except.ok "en") "hola").1,
   by decide,
   (claimC8_detect_language_guarded (fun _ => Except.ok "en") " \t ").2.1 (by decide) true,
   (claimC8_detect_language_guarded (fun _ => Except.error PyExc.valueError) "hola").2.2
     PyExc.valueError rfl true⟩

/-- JSON documents as built by `main` for the export (line 180 onward).
Python ints and floats serialize differently, hence separate `int` and
`num` constructors. -/
inductive Json where
  | null
  | str (s : String)
  | int (n : ℤ)
  | num (q : ℚ)
  | arr (xs : List Json)
  | obj (fields : List (String × Json))

/-- Trailing zeros of a printed fraction are dropped. -/
def stripTrailingZeros (s : String) : String :=
  String.mk ((s.toList.reverse.dropWhile (fun c => c = '0')).reverse)

/-- Zero-pad a fraction to 7 digits. -/
def padLeft7 (s : String) : String :=
  String.mk (List.replicate (7 - s.length) '0') ++ s

/-- Python `repr`/`str` of a float, for the values the program prints:
every resolver output is an integer multiple of 10^(-7) (see the
rounding analysis above), and for such values the
shortest-round-trip float repr is exactly the decimal expansion with
trailing zeros dropped (and `.0` when integral).  Other rationals cannot
reach this function in the modelled program; they get a fallback
rendering. -/
def pyFloatRepr (q : ℚ) : String :=
  let sign := if q < 0 then "-" else ""
  let scaled := |q| * 10000000
  if scaled.den = 1 then
    let m := scaled.num.toNat
    let ip := m / 10000000
    let fp := m % 10000000
    if fp = 0 then sign ++ toString ip ++ ".0"
    else sign ++ toString ip ++ "." ++ stripTrailingZeros (padLeft7 (toString fp))
  else sign ++ toString scaled

/-- The link builder `google_maps_link` (lines 145–146). -/
def google_maps_link (lat lon : ℚ) : String :=
  "https://www.google.com/maps?q=" ++ pyFloatRepr lat ++ "," ++ pyFloatRepr lon

/-- One hexadecimal digit. -/
def hexDigit (n : Nat) : Char :=
  if n < 10 then Char.ofNat (48 + n) else Char.ofNat (87 + n)

/-- JSON string escaping with `ensure_ascii=False`: only the quote, the
backslash and control characters are escaped; non-ASCII characters are
left unescaped. -/
def jsonEscapeChar (c : Char) : String :=
  if c = '"' then "\\\""
  else if c = '\\' then "\\\\"
  else if c = '\n' then "\\n"
  else if c = '\t' then "\\t"
  else if c = '\r' then "\\r"
  else if c = Char.ofNat 8 then "\\b"
  else if c = Char.ofNat 12 then "\\f"
  else if c.toNat < 32 then
    String.mk ['\\', 'u', '0', '0', hexDigit (c.toNat / 16), hexDigit (c.toNat % 16)]
  else String.mk [c]

/-- A JSON string literal under `ensure_ascii=False`. -/
def jsonEscapeString (s : String) : String :=
  "\"" ++ String.join (s.toList.map jsonEscapeChar) ++ "\""

/-- Indentation prefix at nesting level `lvl` for `indent=2`. -/
def jsonIndent (lvl : Nat) : String :=
  String.mk (List.replicate (2 * lvl) ' ')

mutual

/-- Python `json.dumps(..., ensure_ascii=False, indent=2)` (line 238):
objects and arrays break across lines, members are indented two spaces
per level, the key separator is `": "` and the item separator `",\n"`. -/
def jsonDump : Json → Nat → String
  | Json.null, _ => "null"
  | Json.str s, _ => jsonEscapeString s
  | Json.int n, _ => toString n
  | Json.num q, _ => pyFloatRepr q
  | Json.arr [], _ => "[]"
  | Json.arr (x :: xs), lvl =>
    "[\n" ++ String.intercalate ",\n" (jsonDumpList (x :: xs) (lvl + 1)) ++
      "\n" ++ jsonIndent lvl ++ "]"
  | Json.obj [], _ => "\x7b\x7d"
  | Json.obj (f :: fs), lvl =>
    "\x7b\n" ++ String.intercalate ",\n" (jsonDumpFields (f :: fs) (lvl + 1)) ++
      "\n" ++ jsonIndent lvl ++ "\x7d"

/-- Array members, each on its own indented line. -/
def jsonDumpList : List Json → Nat → List String
  | [], _ => []
  | x :: xs, lvl => (jsonIndent lvl ++ jsonDump x lvl) :: jsonDumpList xs lvl

/-- Object members, each on its own indented line. -/
def jsonDumpFields : List (String × Json) → Nat → List String
  | [], _ => []
  | (k, v) :: fs, lvl =>
    (jsonIndent lvl ++ jsonEscapeString k ++ ": " ++ jsonDump v lvl) :: jsonDumpFields fs lvl

end

/-- Python `name.rsplit(".", 1)[0]`: everything before the last dot, the
whole string when there is no dot. -/
def rsplitDotHead (s : String) : String :=
  if '.' ∈ s.toList.reverse then
    String.mk ((((s.toList.reverse).dropWhile (fun c => c != '.')).tail).reverse)
  else s

/-- The exported file name (line 242): base name with the last extension
stripped, suffixed with `_metadata.json`. -/
def export_file_name (uploaded_name : String) : String :=
  rsplitDotHead uploaded_name ++ "_metadata.json"

/-- The `meta_summary` dictionary as `main` builds it (lines 180–237):
the six base fields in order, then `gps` exactly when the resolver
produced a pair (line 189), then the two OCR fields. -/
def buildMetaSummary (file_name : String) (format : Json) (width height : ℤ)
    (mode : String) (exif iptc : Json) (gps : Option (ℚ × ℚ))
    (ocr_text : String) (ocr_language : Option String) : Json :=
  Json.obj
    ([("file_name", Json.str file_name), ("format", format),
      ("size", Json.obj [("width", Json.int width), ("height", Json.int height)]),
      ("mode", Json.str mode), ("exif", exif), ("iptc", iptc)] ++
     (match gps with
      | some (la, lo) =>
        [("gps", Json.obj [("latitude", Json.num la), ("longitude", Json.num lo),
          ("maps_link", Json.str (google_maps_link la lo))])]
      | Option.none => []) ++
     [("ocr_text", Json.str ocr_text),
      ("ocr_language", match ocr_language with
        | some c => Json.str c
        | Option.none => Json.null)])

/-- The exported bytes (line 238): the serialized document, UTF-8
encoded. -/
def export_json_bytes (doc : Json) : ByteArray :=
  (jsonDump doc 0).toUTF8

/-- The keys of a JSON object. -/
def jsonKeys : Json → List String
  | Json.obj fs => fs.map Prod.fst
  | _ => []

/-- Field lookup in a JSON object. -/
def lookupField (k : String) : List (String × Json) → Option Json
  | [] => Option.none
  | (k', v) :: rest => if k' = k then some v else lookupField k rest

/-- Field access on a JSON document. -/
def jsonLookup (k : String) : Json → Option Json
  | Json.obj fs => lookupField k fs
  | _ => Option.none

/-- Rebuilding a string from its characters is the identity. -/
theorem strMk_toList (s : String) : String.mk s.toList = s := by
  cases s
  rfl

/-- Dropping while a predicate holds skips a fully-satisfying prefix. -/
theorem dropWhile_append_of_all (p : Char → Bool) (l1 l2 : List Char)
    (h : ∀ c ∈ l1, p c = true) :
    (l1 ++ l2).dropWhile p = l2.dropWhile p := by
  induction l1 with
  | nil => rfl
  | cons a t ih =>
    rw [List.cons_append, List.dropWhile_cons_of_pos (h a (List.mem_cons_self a t))]
    exact ih (fun c hc => h c (List.mem_cons_of_mem a hc))

/-- On a name of the form `base.ext` (with a dot-free extension),
`rsplit(".", 1)[0]` returns `base`. -/
theorem rsplitDotHead_strip (base ext : String) (hext : '.' ∉ ext.toList) :
    rsplitDotHead (base ++ "." ++ ext) = base := by
  unfold rsplitDotHead
  have hdata : (base ++ "." ++ ext).toList = base.toList ++ '.' :: ext.toList := by
    simp [String.toList, String.data_append]
  rw [hdata]
  rw [if_pos (by simp [List.mem_reverse])]
  have hrev : (base.toList ++ '.' :: ext.toList).reverse =
      ext.toList.reverse ++ '.' :: base.toList.reverse := by
    rw [List.reverse_append, List.reverse_cons, List.append_assoc, List.singleton_append]
  rw [hrev]
  rw [dropWhile_append_of_all _ _ _ (by
    intro c hc
    have : c ∈ ext.toList := List.mem_reverse.mp hc
    have hcne : ¬ c = '.' := fun he => hext (he ▸ this)
    simpa using hcne)]
  rw [List.dropWhile_cons_of_neg (by simp)]
  simp [strMk_toList]

/-- On a dot-free name, `rsplit(".", 1)[0]` is the identity. -/
theorem rsplitDotHead_no_dot (s : String) (h : '.' ∉ s.toList) :
    rsplitDotHead s = s := by
  unfold rsplitDotHead
  rw [if_neg (by simpa [List.mem_reverse] using h)]

/-- Claim C9, confirmed: the exported file name is the uploaded name with
its last extension stripped plus `_metadata.json`; the exported bytes are
the UTF-8 encoding of the document serialized with 2-space indentation
and `ensure_ascii=False` (concrete sample shown, non-ASCII left
unescaped); and the document holds the fields `file_name`, `format`,
`size`, `mode`, `exif`, `iptc`, `ocr_text`, `ocr_language` — with a `gps`
field of latitude, longitude and a
`https://www.google.com/maps?q=<lat>,<lon>` maps link exactly when the
resolver produced a coordinate. -/
theorem claimC9_export_document (base ext noDot : String)
    (hext : '.' ∉ ext.toList) (hnd : '.' ∉ noDot.toList)
    (file_name : String) (format : Json) (w h : ℤ) (mode : String)
    (exif iptc : Json) (gps : Option (ℚ × ℚ)) (ocr : String) (lang : Option String) :
    export_file_name (base ++ "." ++ ext) = base ++ "_metadata.json" ∧
    export_file_name noDot = noDot ++ "_metadata.json" ∧
    export_json_bytes (buildMetaSummary file_name format w h mode exif iptc gps ocr lang) =
      (jsonDump (buildMetaSummary file_name format w h mode exif iptc gps ocr lang) 0).toUTF8 ∧
    jsonDump (Json.obj [("name", Json.str "caf\u00e9"), ("n", Json.int 2)]) 0 =
      "\x7b\n  \"name\": \"caf\u00e9\",\n  \"n\": 2\n\x7d" ∧
    jsonKeys (buildMetaSummary file_name format w h mode exif iptc gps ocr lang) =
      ["file_name", "format", "size", "mode", "exif", "iptc"] ++
        (if gps.isSome then ["gps"] else []) ++ ["ocr_text", "ocr_language"] ∧
    jsonLookup "file_name"
        (buildMetaSummary file_name format w h mode exif iptc gps ocr lang) =
      some (Json.str file_name) ∧
    (∀ la lo, gps = some (la, lo) →
      jsonLookup "gps" (buildMetaSummary file_name format w h mode exif iptc gps ocr lang) =
        some (Json.obj [("latitude", Json.num la), ("longitude", Json.num lo),
          ("maps_link", Json.str ("https://www.google.com/maps?q=" ++
            pyFloatRepr la ++ "," ++ pyFloatRepr lo))])) ∧
    (gps = Option.none →
      jsonLookup "gps" (buildMetaSummary file_name format w h mode exif iptc gps ocr lang) =
        Option.none) := by
  refine ⟨?_, ?_, rfl, by decide, ?_, ?_, ?_, ?_⟩
  · unfold export_file_name
    rw [rsplitDotHead_strip base ext hext]
  · unfold export_file_name
    rw [rsplitDotHead_no_dot noDot hnd]
  · rcases gps with _ | ⟨la, lo⟩ <;>
      simp [buildMetaSummary, jsonKeys]
  · rcases gps with _ | ⟨la, lo⟩ <;>
      simp [buildMetaSummary, jsonLookup, lookupField]
  · intro la lo hg
    subst hg
    simp [buildMetaSummary, jsonLookup, lookupField, google_maps_link]
  · intro hg
    subst hg
    simp [buildMetaSummary, jsonLookup, lookupField]

/-- Witness for C9: a concrete upload name and document. -/
theorem claimC9_witness :
    ('.' : Char) ∉ "jpg".toList ∧ ('.' : Char) ∉ "photo".toList ∧
    export_file_name ("photo" ++ "." ++ "jpg") = "photo" ++ "_metadata.json" ∧
    jsonLookup "gps"
        (buildMetaSummary "photo.jpg" Json.null 10 20 "RGB" (Json.obj []) (Json.obj [])
          (some (1, 2)) "" Option.none) =
      some (Json.obj [("latitude", Json.num 1), ("longitude", Json.num 2),
        ("maps_link", Json.str ("https://www.google.com/maps?q=" ++
          pyFloatRepr 1 ++ "," ++ pyFloatRepr 2))]) := by
  have h1 : ('.' : Char) ∉ "jpg".toList := by decide
  have h2 : ('.' : Char) ∉ "photo".toList := by decide
  refine ⟨h1, h2, ?_, ?_⟩
  · exact (claimC9_export_document "photo" "jpg" "photo" h1 h2 "photo.jpg" Json.null 10 20
      "RGB" (Json.obj []) (Json.obj []) (some (1, 2)) "" Option.none).1
  · exact (claimC9_export_document "photo" "jpg" "photo" h1 h2 "photo.jpg" Json.null 10 20
      "RGB" (Json.obj []) (Json.obj []) (some (1, 2)) "" Option.none).2.2.2.2.2.2.1
      1 2 rfl

end ImageMeta